import Mathlib

/-!
# NVDD (NVIDIA Driver Dumper) — verification of the extraction-and-storage core

Shallow embedding of `src/main.py`: the record store
(`check_and_create_database`, `addDriver`) and the page extractor
(`getPageInfo`).  The JSON document backing the store is modelled as an
inductive `Json` value; the file at `data/database.json` is an
`Option Json` (`none` = file absent).  The HTML page is modelled by the
results of the structural queries `getPageInfo` performs through
BeautifulSoup (title text, `rightContent` subtree, `td` anchors, `tr`
rows), which is the interface the Python code consumes.  Python
exceptions that the code can raise or catch are made explicit
(`PyError`, `Except`).
-/

namespace NVDD

/-- A JSON value, as produced by `json.load` / consumed by `json.dump`.
Only the constructors the program can produce or meet are needed
(`null`, strings, arrays, objects); objects keep insertion order, as
Python dicts do. -/
inductive Json where
  | null : Json
  | str : String → Json
  | arr : List Json → Json
  | obj : List (String × Json) → Json
  deriving Inhabited

/-- Python exceptions relevant to the store code paths. -/
inductive PyError where
  | fileNotFound
  | keyError
  | attributeError
  | typeError
  deriving DecidableEq, Repr

/-- `d[key]` on a Python dict represented as an insertion-ordered
association list: the first binding of `key`, if any. -/
def lookupKey : List (String × Json) → String → Option Json
  | [], _ => none
  | (k, v) :: rest, key => if k = key then some v else lookupKey rest key

/-- `d[key] = v` on a Python dict: replace the binding in place if the
key exists (keeping insertion order), otherwise append it at the end. -/
def setKey : List (String × Json) → String → Json → List (String × Json)
  | [], k, v => [(k, v)]
  | (k', v') :: rest, k, v =>
      if k' = k then (k, v) :: rest else (k', v') :: setKey rest k v

/-- The `initial_structure` written by `check_and_create_database`:
`{"drivers": []}`. -/
def initial_structure : Json := Json.obj [("drivers", Json.arr [])]

/-- `check_and_create_database` (main.py:114-138): if the database file
is absent, create it with `initial_structure`; if it exists, leave it
untouched.  The state is the document at `data/database.json`
(`none` = no file). -/
def check_and_create_database (file : Option Json) : Option Json :=
  match file with
  | none => some initial_structure
  | some doc => some doc

/-- Python `None`-or-string to JSON: `json.dump` maps `None` to `null`. -/
def optJson : Option String → Json
  | none => Json.null
  | some s => Json.str s

/-- The `new_driver` dict built in `addDriver` (main.py:159-168): the
eight keys in the source's insertion order, `None` arguments serialized
as `null`.  `driver_url` is always a string at the call site. -/
def mkDriverRecord (name version cuda_version target_os release_date
    file_size language : Option String) (driver_url : String) : Json :=
  Json.obj
    [ ("name", optJson name)
    , ("version", optJson version)
    , ("cuda_version", optJson cuda_version)
    , ("target_os", optJson target_os)
    , ("release_date", optJson release_date)
    , ("file_size", optJson file_size)
    , ("language", optJson language)
    , ("url", Json.str driver_url) ]

/-- `addDriver` (main.py:140-177), with the record already built: load
the document (fails with `FileNotFoundError` if the file is absent),
evaluate `database["drivers"].append(new_driver)` — `KeyError` if the
key is missing, `TypeError` if the document is not a dict,
`AttributeError` if the value has no `append` (e.g. `null`) — then
rewrite the whole document. -/
def addDriver (file : Option Json) (record : Json) : Except PyError (Option Json) :=
  match file with
  | none => .error .fileNotFound
  | some (Json.obj fields) =>
      match lookupKey fields "drivers" with
      | none => .error .keyError
      | some (Json.arr ds) =>
          .ok (some (Json.obj (setKey fields "drivers" (Json.arr (ds ++ [record])))))
      | some _ => .error .attributeError
  | some _ => .error .typeError

/-- The `rightContent` subtree of a fetched page, described by the
results of the structural queries `getPageInfo` runs inside it:
presence of the `span#lblErrorMessage` error label, the text of the
three `td.contentsummaryright` anchors (`tdVersion`, `tdCudaToolkits`,
`tdReleaseDate`) when found, and every `tr` row as the list of the text
of its `td` cells. -/
structure RightContent where
  lblErrorMessage : Bool
  tdVersion : Option String
  tdCudaToolkits : Option String
  tdReleaseDate : Option String
  trRows : List (List String)
  deriving DecidableEq, Repr

/-- A fetched and parsed page, described by the results of the
document-level queries: the text of `title#pageTitle` when found, and
the `div#rightContent` subtree when found. -/
structure Page where
  pageTitle : Option String
  rightContent : Option RightContent
  deriving DecidableEq, Repr

/-- The character class Python's `str.strip()` removes (ASCII
whitespace; the page text the program handles is ASCII). -/
def pyIsSpace (c : Char) : Bool :=
  c = ' ' || c = '\t' || c = '\n' || c = '\r' || c = '\x0b' || c = '\x0c'

/-- Python `s.strip()`: drop leading and trailing whitespace. -/
def pyStrip (s : String) : String :=
  String.mk (((s.data.dropWhile pyIsSpace).reverse.dropWhile pyIsSpace).reverse)

/-- Splitting a character list on a separator, Python-style: the result
is always non-empty, and splitting the empty text yields `[[]]`. -/
def splitCharList (sep : Char) : List Char → List (List Char)
  | [] => [[]]
  | c :: cs =>
      let rest := splitCharList sep cs
      if c = sep then [] :: rest
      else
        match rest with
        | [] => [[c]]
        | r :: rs => (c :: r) :: rs

/-- Python `s.split(sep)` for a one-character separator: always returns
at least one segment (`"".split('|') == [""]`). -/
def pySplit (s : String) (sep : Char) : List String :=
  (splitCharList sep s.data).map String.mk

/-- Driver name extraction (main.py:233-237):
`driver_title.text.split('|')[0].strip()` when the title is found,
otherwise the variable stays `None`.  Python `split` always returns a
non-empty list, so indexing `[0]` never fails. -/
def extractName (pageTitle : Option String) : Option String :=
  pageTitle.map (fun t => pyStrip ((pySplit t '|').headD ""))

/-- Driver version extraction (main.py:240-244): trimmed anchor text
when the `tdVersion` anchor is found, otherwise `None`. -/
def extractVersion (tdVersion : Option String) : Option String :=
  tdVersion.map pyStrip

/-- CUDA version extraction (main.py:247-251):
`if cuda_version and cuda_version.text.strip()` — set only when the
anchor is found and its trimmed text is non-empty, otherwise `None`. -/
def extractCuda (tdCudaToolkits : Option String) : Option String :=
  match tdCudaToolkits with
  | some t => if pyStrip t ≠ "" then some (pyStrip t) else none
  | none => none

/-- Release date extraction (main.py:254-258): trimmed anchor text when
the `tdReleaseDate` anchor is found, otherwise `None`. -/
def extractReleaseDate (tdReleaseDate : Option String) : Option String :=
  tdReleaseDate.map pyStrip

/-- The three row-extracted variables of `getPageInfo`
(`operating_system`, `language`, `file_size`), all initialized to
`None` (main.py:224-226). -/
structure RowFields where
  operating_system : Option String
  language : Option String
  file_size : Option String
  deriving DecidableEq, Repr

/-- One iteration of the row loop (main.py:264-274): only rows with
exactly two `td` cells are examined; the trimmed first cell is compared
(exact, case-sensitive, colon included) against the three known labels
and the trimmed second cell assigned on a match; any other row leaves
all three variables untouched. -/
def processRow (st : RowFields) (tds : List String) : RowFields :=
  match tds with
  | [c0, c1] =>
      let name := pyStrip c0
      let data := pyStrip c1
      if name = "Operating System:" then { st with operating_system := some data }
      else if name = "Language:" then { st with language := some data }
      else if name = "File Size:" then { st with file_size := some data }
      else st
  | _ => st

/-- The whole row loop over `right_content.find_all('tr')`
(main.py:261-274). -/
def extractRows (trRows : List (List String)) : RowFields :=
  trRows.foldl processRow ⟨none, none, none⟩

/-- Outcome of one `getPageInfo` call, as observable from its control
flow: the `except RequestException` handler, the
`except AttributeError` handler (the spec's `StructureMissing`
conversion point), the early `return` on the embedded error label (the
spec's `InvalidDriverPage`), normal completion through `addDriver`, or
an exception no handler catches (propagating out of the function). -/
inductive PageOutcome where
  | fetchError
  | structureMissing
  | invalidDriverPage
  | success
  | crash : PyError → PageOutcome
  deriving DecidableEq, Repr

/-- `getPageInfo` (main.py:179-296) over the store state.  `fetched` is
the result of `requests.get` + `raise_for_status` + HTML parsing
(`none` = `RequestException`, caught at main.py:289).  When
`div#rightContent` is absent, the code prints a notice and then calls
`right_content.find(...)` on `None` (main.py:209), raising
`AttributeError`, caught at main.py:295 — no store write.  When the
error label is present it returns early (main.py:212) — no store write.
Otherwise the fields are extracted independently and `addDriver` is
called (main.py:287); an `AttributeError` escaping `addDriver` is
caught by the same handler, while other exceptions (`KeyError`,
`FileNotFoundError`, `TypeError`) propagate uncaught. -/
def getPageInfo (fetched : Option Page) (driver_url : String)
    (file : Option Json) : PageOutcome × Option Json :=
  match fetched with
  | none => (.fetchError, file)
  | some page =>
      match page.rightContent with
      | none => (.structureMissing, file)
      | some rc =>
          if rc.lblErrorMessage then (.invalidDriverPage, file)
          else
            let driver_name := extractName page.pageTitle
            let driver_version := extractVersion rc.tdVersion
            let cuda_driver_version := extractCuda rc.tdCudaToolkits
            let release_date := extractReleaseDate rc.tdReleaseDate
            let rows := extractRows rc.trRows
            match addDriver file (mkDriverRecord driver_name driver_version
                cuda_driver_version rows.operating_system release_date
                rows.file_size rows.language driver_url) with
            | .ok file' => (.success, file')
            | .error .attributeError => (.structureMissing, file)
            | .error e => (.crash e, file)

/-- `addDriver` iterated over a list of records in call order, the
read-modify-rewrite of each call threaded through `Except` (a raised
exception aborts the sequence). -/
def appendAll (file : Option Json) (records : List Json) :
    Except PyError (Option Json) :=
  records.foldlM addDriver file

/-- The store document holding exactly the list `ds` of records:
`{"drivers": ds}`. -/
def storeDoc (ds : List Json) : Option Json :=
  some (Json.obj [("drivers", Json.arr ds)])

/-- Top-level keys of a record, in serialization order. -/
def recKeys : Json → List String
  | Json.obj fields => fields.map Prod.fst
  | _ => []

/-- Value bound to a key in a record object (`none` when the key is
absent or the value is not an object). -/
def recLookup (record : Json) (key : String) : Option Json :=
  match record with
  | Json.obj fields => lookupKey fields key
  | _ => none

/-- Whether the store state is a document with a `"drivers"` key bound
to an array — the shape `addDriver` needs to not raise. -/
def hasDriversArray : Option Json → Bool
  | some (Json.obj fields) =>
      match lookupKey fields "drivers" with
      | some (Json.arr _) => true
      | _ => false
  | _ => false

/-! ## Helper lemmas -/

/-- On a well-formed store document, `addDriver` appends the record at
the end of the `drivers` array and touches nothing else. -/
theorem addDriver_storeDoc (ds : List Json) (r : Json) :
    addDriver (storeDoc ds) r = Except.ok (storeDoc (ds ++ [r])) := by
  simp [addDriver, storeDoc, lookupKey, setKey]

/-- Iterating `addDriver` appends the records in call order after the
existing ones. -/
theorem appendAll_storeDoc (records : List Json) :
    ∀ ds : List Json, appendAll (storeDoc ds) records
      = Except.ok (storeDoc (ds ++ records)) := by
  induction records with
  | nil =>
      intro ds
      simp only [appendAll, List.foldlM_nil, List.append_nil]
      rfl
  | cons r rs ih =>
      intro ds
      simp only [appendAll, List.foldlM_cons, addDriver_storeDoc]
      have h := ih (ds ++ [r])
      simp only [appendAll] at h
      simpa using h

/-! ## Claims -/

/-- C1 (counterexample): the claim says a store file that exists but
lacks the `drivers` array is repaired by `check_and_create_database`
so a later append cannot fault.  On the concrete state where the file
holds `{}`, `check_and_create_database` leaves it untouched (still no
`drivers` array) and the subsequent `addDriver` raises `KeyError`. -/
theorem C1_counterexample :
    check_and_create_database (some (Json.obj [])) = some (Json.obj []) ∧
    hasDriversArray (check_and_create_database (some (Json.obj []))) = false ∧
    addDriver (check_and_create_database (some (Json.obj [])))
        (mkDriverRecord none none none none none none none "u")
      = Except.error PyError.keyError := by
  exact ⟨rfl, rfl, rfl⟩

/-- C1 (amended): after `check_and_create_database` the store document
always exists — an absent file is created as `{"drivers": []}`, which
has the `drivers` array — but an existing file is left unchanged even
when it lacks the `drivers` array, and a subsequent append on such a
document raises `KeyError` instead of being repaired. -/
theorem C1_amended_initialization :
    check_and_create_database none = some initial_structure ∧
    hasDriversArray (check_and_create_database none) = true ∧
    (∀ doc, check_and_create_database (some doc) = some doc) ∧
    (∀ fields record, lookupKey fields "drivers" = none →
      addDriver (some (Json.obj fields)) record = Except.error PyError.keyError) := by
  refine ⟨rfl, rfl, fun doc => rfl, fun fields record h => ?_⟩
  simp [addDriver, h]

/-- Witness for C1 (amended) at the concrete document `{}`. -/
theorem C1_amended_initialization_witness :
    lookupKey [] "drivers" = none ∧
    addDriver (some (Json.obj [])) (Json.str "r") = Except.error PyError.keyError :=
  ⟨rfl, C1_amended_initialization.2.2.2 [] (Json.str "r") rfl⟩

/-- C2 (counterexample): the claim says a record whose optional field
(e.g. `version`) was absent from the page omits that key.  On a
concrete page with no `tdVersion` anchor the extraction succeeds and
the appended record carries the key `"version"` bound to `null`. -/
theorem C2_counterexample :
    (getPageInfo (some ⟨some "T", some ⟨false, none, none, none, []⟩⟩) "u"
        (storeDoc [])).1 = PageOutcome.success ∧
    (getPageInfo (some ⟨some "T", some ⟨false, none, none, none, []⟩⟩) "u"
        (storeDoc [])).2
      = storeDoc [mkDriverRecord (some "T") none none none none none none "u"] ∧
    recLookup (mkDriverRecord (some "T") none none none none none none "u")
        "version" = some Json.null := by
  exact ⟨rfl, rfl, rfl⟩

/-- C2 (amended): when an optional field is absent from the page, the
record appended to the store still contains that key, bound to `null`
— the schema is fixed and no key is ever omitted; and `addDriver`
appends the record verbatim. -/
theorem C2_amended_null_fields (name cuda target_os release_date file_size
    language : Option String) (url : String) :
    recLookup (mkDriverRecord name none cuda target_os release_date file_size
        language url) "version" = some Json.null ∧
    recLookup (mkDriverRecord name none none target_os release_date file_size
        language url) "cuda_version" = some Json.null ∧
    (∀ ds, addDriver (storeDoc ds) (mkDriverRecord name none cuda target_os
        release_date file_size language url)
      = Except.ok (storeDoc (ds ++ [mkDriverRecord name none cuda target_os
          release_date file_size language url]))) := by
  exact ⟨rfl, rfl, fun ds => addDriver_storeDoc ds _⟩

/-- C3 (counterexample): the claim says no record with an unset `name`
is ever written.  On a concrete page with a content region but no
`title#pageTitle` element, extraction proceeds and a record whose
`"name"` key is bound to `null` is appended to the store. -/
theorem C3_counterexample :
    (getPageInfo (some ⟨none, some ⟨false, some "550.54", none, none, []⟩⟩)
        "u" (storeDoc [])).1 = PageOutcome.success ∧
    (getPageInfo (some ⟨none, some ⟨false, some "550.54", none, none, []⟩⟩)
        "u" (storeDoc [])).2
      = storeDoc [mkDriverRecord none (some "550.54") none none none none none "u"] ∧
    recLookup (mkDriverRecord none (some "550.54") none none none none none "u")
        "name" = some Json.null := by
  exact ⟨rfl, rfl, rfl⟩

/-- C3 (amended): when the page title is present, the record's name is
the string made of the first `|`-segment of the title, stripped; when
the title is missing, extraction still proceeds and the record is
written with `name` bound to `null`. -/
theorem C3_amended_name (title url : String)
    (version cuda target_os release_date file_size language : Option String) :
    recLookup (mkDriverRecord (extractName (some title)) version cuda target_os
        release_date file_size language url) "name"
      = some (Json.str (pyStrip ((pySplit title '|').headD ""))) ∧
    recLookup (mkDriverRecord (extractName none) version cuda target_os
        release_date file_size language url) "name" = some Json.null := by
  exact ⟨rfl, rfl⟩

/-- C4: when the fetched page has no `div#rightContent`, `getPageInfo`
ends in the `except AttributeError` handler — the conversion point the
spec names `StructureMissing` — and the store is unchanged; the fault
does not propagate. -/
theorem C4_structure_missing (page : Page) (url : String) (file : Option Json)
    (h : page.rightContent = none) :
    getPageInfo (some page) url file = (PageOutcome.structureMissing, file) := by
  simp [getPageInfo, h]

/-- Witness for C4 at a concrete page with no content region. -/
theorem C4_structure_missing_witness :
    (⟨some "T", none⟩ : Page).rightContent = none ∧
    getPageInfo (some ⟨some "T", none⟩) "u" (storeDoc [])
      = (PageOutcome.structureMissing, storeDoc []) :=
  ⟨rfl, C4_structure_missing ⟨some "T", none⟩ "u" (storeDoc []) rfl⟩

/-- C5: when the content region contains the `span#lblErrorMessage`
error label, `getPageInfo` returns immediately with the
`InvalidDriverPage` outcome and the store is unchanged. -/
theorem C5_invalid_driver_page (page : Page) (rc : RightContent) (url : String)
    (file : Option Json) (h1 : page.rightContent = some rc)
    (h2 : rc.lblErrorMessage = true) :
    getPageInfo (some page) url file = (PageOutcome.invalidDriverPage, file) := by
  simp [getPageInfo, h1, h2]

/-- Witness for C5 at a concrete page carrying the error label. -/
theorem C5_invalid_driver_page_witness :
    (⟨some "T", some ⟨true, none, none, none, []⟩⟩ : Page).rightContent
      = some ⟨true, none, none, none, []⟩ ∧
    getPageInfo (some ⟨some "T", some ⟨true, none, none, none, []⟩⟩) "u"
        (storeDoc []) = (PageOutcome.invalidDriverPage, storeDoc []) :=
  ⟨rfl, C5_invalid_driver_page _ ⟨true, none, none, none, []⟩ "u" (storeDoc [])
    rfl rfl⟩

/-- C6: starting from the empty store, appending a sequence of records
yields a `drivers` array holding exactly those records in call order;
and each single append only adds its record at the end, leaving every
previously stored record in place. -/
theorem C6_append_sequence (records : List Json) :
    appendAll (storeDoc []) records = Except.ok (storeDoc records) ∧
    (∀ ds r, addDriver (storeDoc ds) r = Except.ok (storeDoc (ds ++ [r]))) := by
  refine ⟨?_, fun ds r => addDriver_storeDoc ds r⟩
  simpa using appendAll_storeDoc records []

/-- C7: `check_and_create_database` on an absent file creates exactly
`{"drivers": []}`, and running it again (or on any existing document)
changes nothing — it is idempotent. -/
theorem C7_idempotent :
    check_and_create_database none = some initial_structure ∧
    initial_structure = Json.obj [("drivers", Json.arr [])] ∧
    check_and_create_database (check_and_create_database none)
      = check_and_create_database none ∧
    (∀ file, check_and_create_database (check_and_create_database file)
      = check_and_create_database file) := by
  refine ⟨rfl, rfl, rfl, fun file => ?_⟩
  cases file <;> rfl

/-- C8: in a two-cell row, the stripped label is compared exactly and
case-sensitively (trailing colon included) against the three known
labels, each match assigning only its own field; a label equal to none
of the three leaves all three row variables untouched. -/
theorem C8_label_matching (st : RowFields) (c0 c1 : String)
    (h1 : pyStrip c0 ≠ "Operating System:") (h2 : pyStrip c0 ≠ "Language:")
    (h3 : pyStrip c0 ≠ "File Size:") :
    processRow st [c0, c1] = st ∧
    processRow st ["Operating System:", c1]
      = { st with operating_system := some (pyStrip c1) } ∧
    processRow st ["Language:", c1] = { st with language := some (pyStrip c1) } ∧
    processRow st ["File Size:", c1] = { st with file_size := some (pyStrip c1) } := by
  refine ⟨?_, rfl, rfl, rfl⟩
  simp [processRow, h1, h2, h3]

/-- Witness for C8: a lowercase variant of a known label matches
nothing and leaves the row state unchanged. -/
theorem C8_label_matching_witness :
    pyStrip "operating system:" ≠ "Operating System:" ∧
    processRow ⟨none, none, none⟩ ["operating system:", "Windows 11"]
      = ⟨none, none, none⟩ :=
  ⟨by decide, (C8_label_matching ⟨none, none, none⟩ "operating system:"
    "Windows 11" (by decide) (by decide) (by decide)).1⟩

/-- C9: a `tdCudaToolkits` anchor whose text strips to the empty string
produces no CUDA version — the field is `none`, never `some ""`. -/
theorem C9_cuda_empty (t : String) (h : pyStrip t = "") :
    extractCuda (some t) = none ∧ extractCuda (some t) ≠ some "" := by
  refine ⟨?_, ?_⟩ <;> simp [extractCuda, h]

/-- Witness for C9 at whitespace-only anchor text. -/
theorem C9_cuda_empty_witness :
    pyStrip "   " = "" ∧ extractCuda (some "   ") = none :=
  ⟨by decide, (C9_cuda_empty "   " (by decide)).1⟩

/-- C10: every record handed to `addDriver` is built by the fixed
`new_driver` schema: exactly the eight keys in source order, each
optional field present and bound to `null` when nothing was extracted
(`optJson none = null`), each extracted value stored as a string. -/
theorem C10_record_schema (name version cuda target_os release_date file_size
    language : Option String) (url : String) :
    recKeys (mkDriverRecord name version cuda target_os release_date file_size
        language url)
      = ["name", "version", "cuda_version", "target_os", "release_date",
         "file_size", "language", "url"] ∧
    recLookup (mkDriverRecord name version cuda target_os release_date file_size
        language url) "name" = some (optJson name) ∧
    recLookup (mkDriverRecord name version cuda target_os release_date file_size
        language url) "version" = some (optJson version) ∧
    recLookup (mkDriverRecord name version cuda target_os release_date file_size
        language url) "cuda_version" = some (optJson cuda) ∧
    recLookup (mkDriverRecord name version cuda target_os release_date file_size
        language url) "target_os" = some (optJson target_os) ∧
    recLookup (mkDriverRecord name version cuda target_os release_date file_size
        language url) "release_date" = some (optJson release_date) ∧
    recLookup (mkDriverRecord name version cuda target_os release_date file_size
        language url) "file_size" = some (optJson file_size) ∧
    recLookup (mkDriverRecord name version cuda target_os release_date file_size
        language url) "language" = some (optJson language) ∧
    recLookup (mkDriverRecord name version cuda target_os release_date file_size
        language url) "url" = some (Json.str url) ∧
    optJson none = Json.null := by
  exact ⟨rfl, rfl, rfl, rfl, rfl, rfl, rfl, rfl, rfl, rfl⟩

end NVDD
